import Mathlib

/-!
Verification of `panel/src/pages/Dashboard/FullPerfCard.tsx`.

The source is a React dashboard widget.  We embed its pure logic:
the `useEffect` draw guard of `FullPerfChart`, the `useMemo` data
shaping (`processedData`), the `ChartErrorMessage` taxonomy, the
render-branch precedence of `FullPerfCard`, the SWR fetcher wrapper,
and a small event-step model of the thread selector wired to the
`mutate`-on-selection effect.  External collaborators from
`chartingUtils` (`getBucketTicketsEstimatedTime`,
`getTimeWeightedHistogram`, `processPerfLog`, `formatTickBoundary`)
are not part of the provided source slice and are taken as function
parameters, so every theorem below holds for every implementation of
them.
-/

/-- One per-snapshot thread performance record (`SvRtPerfCountsThreadType`);
the component only reads its `buckets` field. -/
structure SvRtPerfCountsThread where
  buckets : List Nat
deriving DecidableEq

/-- The success response of `GET /perfChartData/:thread/`
(`PerfChartApiSuccessResp`): bucket `boundaries` plus the ordered
per-snapshot log `threadPerfLog`. -/
structure PerfChartApiSuccessResp where
  boundaries : List String
  threadPerfLog : List SvRtPerfCountsThread
deriving DecidableEq

/-- The part of the result of the external `processPerfLog` that this
component reads: the `lifespans` sequence (other fields are spread
through unchanged and never inspected here). -/
structure ParsedPerfLog (Lifespan : Type) where
  lifespans : List Lifespan

/-- The shaped view model built inside the `useMemo`: the parsed
lifespans together with the derived `bucketLabels`.  The
`cursorSetter` closure carries no data relevant to the claims and is
omitted. -/
structure ProcessedData (Lifespan : Type) where
  lifespans : List Lifespan
  bucketLabels : List String

/-- The body of the `useMemo` computing `processedData`:
returns `null` when `apiData` is missing, builds the per-log
processor from `getTimeWeightedHistogram` and
`getBucketTicketsEstimatedTime`, runs `processPerfLog`, returns
`null` when that fails, and otherwise attaches
`bucketLabels := apiData.boundaries.map(formatTickBoundary)`. -/
def computeProcessedData {EstTime Hist Lifespan : Type}
    (getBucketTicketsEstimatedTime : List String → EstTime)
    (getTimeWeightedHistogram : List Nat → EstTime → Hist)
    (processPerfLog :
      List SvRtPerfCountsThread → (SvRtPerfCountsThread → Hist) →
        Option (ParsedPerfLog Lifespan))
    (formatTickBoundary : String → String)
    (apiData : Option PerfChartApiSuccessResp) :
    Option (ProcessedData Lifespan) :=
  match apiData with
  | none => none
  | some d =>
      let bucketTicketsEstimatedTime :=
        getBucketTicketsEstimatedTime d.boundaries
      let perfProcessor := fun (perfLog : SvRtPerfCountsThread) =>
        getTimeWeightedHistogram perfLog.buckets bucketTicketsEstimatedTime
      match processPerfLog d.threadPerfLog perfProcessor with
      | none => none
      | some parsed =>
          some { lifespans := parsed.lifespans
                 bucketLabels := d.boundaries.map formatTickBoundary }

/-- The guard of the chart-drawing `useEffect`: `drawFullPerfChart` is
invoked exactly when this is `true`.  Mirrors the two early returns
`if (!processedData || !svgRef.current || !canvasRef.current || !width || !height) return;`
and `if (!processedData.lifespans.length) return;`. -/
def shouldDraw {Lifespan : Type} (processedData : Option (ProcessedData Lifespan))
    (svgMounted canvasMounted : Bool) (width height : Nat) : Bool :=
  match processedData with
  | none => false
  | some p =>
      if svgMounted = false ∨ canvasMounted = false ∨ width = 0 ∨ height = 0 then
        false
      else if p.lifespans.length = 0 then
        false
      else
        true

/-- The margin configuration of `FullPerfChart`. -/
structure Margins where
  top : Nat
  right : Nat
  bottom : Nat
  left : Nat
  axis : Nat
deriving DecidableEq

/-- `margins = { top: 0, right: 50, bottom: 30, left: 40, axis: 1 }`. -/
def margins : Margins :=
  { top := 0, right := 50, bottom := 30, left := 40, axis := 1 }

/-- The visible surface returned by `FullPerfChart`: the svg sized to
the full dimensions and the canvas inset by the margins. -/
structure RenderedSurface where
  svgWidth : Nat
  svgHeight : Nat
  canvasWidth : Int
  canvasHeight : Int
deriving DecidableEq

/-- The render result of `FullPerfChart`: `null` when width or height
is falsy (`if (!width || !height) return null;`), otherwise the
svg/canvas pair.  The shaped data does not affect this return. -/
def fullPerfChartRender {Lifespan : Type}
    (processedData : Option (ProcessedData Lifespan))
    (width height : Nat) : Option RenderedSurface :=
  if width = 0 ∨ height = 0 then none
  else
    some { svgWidth := width
           svgHeight := height
           canvasWidth := (width : Int) - margins.left - margins.right
           canvasHeight := (height : Int) - margins.top - margins.bottom }

/-- The own entries of the `errorMessageMaps` object literal of
`ChartErrorMessage` (JSX flattened to plain text): `some` exactly on
the four declared keys.  The full JS bracket-access semantics, which
additionally reaches members inherited from `Object.prototype`, is
`backendErrorDisplay` below. -/
def errorMessageMaps (msg : String) : Option String :=
  if msg = "bad_request" then
    some "Chart data loading failed: bad request."
  else if msg = "invalid_thread_name" then
    some "Chart data loading failed: invalid thread name."
  else if msg = "data_unavailable" then
    some "Chart data loading failed: data not yet available."
  else if msg = "not_enough_data" then
    some "There is not enough data to display the chart just yet. The chart requires at least 30 minutes of server runtime data to be available."
  else
    none

/-- The error value handed to `ChartErrorMessage`: either a
`BackendApiError` (distinguished by `instanceof`) or a plain `Error`
whose `message` may be absent. -/
inductive ChartError where
  | backendApiError (message : String)
  | genericError (message : Option String)
deriving DecidableEq

/-- The text rendered by `ChartErrorMessage` over the own entries of
the lookup table: for a `BackendApiError`,
`errorMessageMaps[error.message] ?? 'Unknown BackendApiError'`
restricted to messages that are not `Object.prototype` member names;
otherwise `Error: {error.message ?? 'Unknown Error'}`.  The
`BackendApiError` branch with the full prototype-chain semantics of
the bracket access is `backendErrorDisplay` below; the generic branch
reads a plain field and involves no object lookup. -/
def chartErrorMessage : ChartError → String
  | ChartError.backendApiError msg =>
      match errorMessageMaps msg with
      | some text => text
      | none => "Unknown BackendApiError"
  | ChartError.genericError m =>
      match m with
      | some text => "Error: " ++ text
      | none => "Error: " ++ "Unknown Error"

/-- The declared dependency key of the `processedData` `useMemo`:
`[apiData, threadName, isDarkMode]`. -/
structure DepsKey where
  apiData : Option PerfChartApiSuccessResp
  threadName : String
  isDarkMode : Bool
deriving DecidableEq

/-- A `useMemo` cell: the dependency key it was computed against and
the cached value. -/
structure MemoCell (V : Type) where
  deps : DepsKey
  value : V

/-- One render step of `useMemo`: when the dependency key is unchanged
the cached cell is returned untouched (the Bool records whether the
computation ran); otherwise the value is recomputed from the new key. -/
def useMemoStep {V : Type} (compute : DepsKey → V)
    (cell : MemoCell V) (deps : DepsKey) : MemoCell V × Bool :=
  if cell.deps = deps then (cell, false)
  else ({ deps := deps, value := compute deps }, true)

/-- The `useMemo` computation as a function of its dependency key:
the body reads `apiData` (and closes over `threadName` only inside the
omitted `cursorSetter`), so the shaped value is
`computeProcessedData` applied to the key component `apiData`. -/
def processedDataOfKey {EstTime Hist Lifespan : Type}
    (getBucketTicketsEstimatedTime : List String → EstTime)
    (getTimeWeightedHistogram : List Nat → EstTime → Hist)
    (processPerfLog :
      List SvRtPerfCountsThread → (SvRtPerfCountsThread → Hist) →
        Option (ParsedPerfLog Lifespan))
    (formatTickBoundary : String → String)
    (key : DepsKey) : Option (ProcessedData Lifespan) :=
  computeProcessedData getBucketTicketsEstimatedTime
    getTimeWeightedHistogram processPerfLog formatTickBoundary key.apiData

/-- The three fixed `SelectItem` values of the thread selector. -/
def selectItems : List String := ["svMain", "svSync", "svNetwork"]

/-- The view state of `FullPerfCard` relevant to fetching: the
`selectedThread` state and the ordered log of threads for which a
fetch was issued (each entry is the `pathParams.thread` of one call
through `chartApi`). -/
structure CardState where
  selectedThread : String
  fetchLog : List String
deriving DecidableEq

/-- The mount state: `useState('svMain')`, and the initial SWR fetch
keyed (through the fetcher closure) to that initial thread. -/
def initialCardState : CardState :=
  { selectedThread := "svMain", fetchLog := ["svMain"] }

/-- One selection-change event: `onValueChange` stores the new thread,
then the `useEffect` with dependency `[selectedThread]` runs once and
calls `swrChartApiResp.mutate()`, issuing exactly one revalidation
fetch whose fetcher reads the now-current `selectedThread`. -/
def selectThread (s : CardState) (t : String) : CardState :=
  { selectedThread := t, fetchLog := s.fetchLog ++ [t] }

/-- Folding a sequence of selection-change events over the card state. -/
def runEvents (s : CardState) (evs : List String) : CardState :=
  evs.foldl selectThread s

/-- The rendered content of `FullPerfCard`. -/
inductive ContentNode where
  | chart (threadName : String) (apiData : PerfChartApiSuccessResp)
      (width height : Nat) (isDarkMode : Bool)
  | spinner
  | errorMessage (text : String)
  | empty
deriving DecidableEq

/-- The `contentNode` branching of `FullPerfCard`: data wins, else the
loading spinner, else the error message, else nothing. -/
def contentNode (data : Option PerfChartApiSuccessResp) (isLoading : Bool)
    (error : Option ChartError) (selectedThread : String)
    (width height : Nat) (isDarkMode : Bool) : ContentNode :=
  match data with
  | some d => ContentNode.chart selectedThread d width height isDarkMode
  | none =>
      if isLoading then ContentNode.spinner
      else
        match error with
        | some e => ContentNode.errorMessage (chartErrorMessage e)
        | none => ContentNode.empty

/-- The SWR fetcher wrapper: `if (!data) throw new Error('empty_response'); return data;`.
The thrown value is a plain `Error`, not a `BackendApiError`. -/
def fetcherResult (resp : Option PerfChartApiSuccessResp) :
    Except ChartError PerfChartApiSuccessResp :=
  match resp with
  | some d => Except.ok d
  | none => Except.error (ChartError.genericError (some "empty_response"))

/-- Concrete shaped data used by witnesses. -/
def pdExample : ProcessedData Nat :=
  { lifespans := [0], bucketLabels := [] }

/-- Concrete dependency key used by witnesses. -/
def depsExample : DepsKey :=
  { apiData := none, threadName := "svMain", isDarkMode := false }

/-- Concrete memo cell used by witnesses. -/
def cellExample : MemoCell (Option (ProcessedData Nat)) :=
  { deps := depsExample, value := none }

/-- Concrete API response used by witnesses. -/
def respExample : PerfChartApiSuccessResp :=
  { boundaries := ["a"], threadPerfLog := [] }

/-- Concrete stand-in for `processPerfLog` used by witnesses. -/
def pplExample :
    List SvRtPerfCountsThread → (SvRtPerfCountsThread → Nat) →
      Option (ParsedPerfLog Nat) :=
  fun _ _ => some { lifespans := [] }

/-- Concrete shaped result of `computeProcessedData` on `respExample`
with `pplExample` and the identity formatter, used by witnesses. -/
def pdComputedExample : ProcessedData Nat :=
  { lifespans := [], bucketLabels := ["a"] }

/-- Property names a plain object literal inherits from
`Object.prototype`: bracket access on `errorMessageMaps` reaches these
through the prototype chain and yields a non-nullish value (a
function, or for `__proto__` an object). -/
def objectPrototypeProps : List String :=
  ["constructor", "hasOwnProperty", "isPrototypeOf", "propertyIsEnumerable",
   "toLocaleString", "toString", "valueOf", "__proto__", "__defineGetter__",
   "__defineSetter__", "__lookupGetter__", "__lookupSetter__"]

/-- The child value rendered by the `BackendApiError` branch of
`ChartErrorMessage`: one of the mapped JSX texts, an inherited
`Object.prototype` member (non-nullish, so the nullish-coalescing
fallback is bypassed), or the fallback text
`Unknown BackendApiError`. -/
inductive BackendErrorDisplay where
  | mappedText (text : String)
  | inheritedMember (name : String)
  | fallbackText
deriving DecidableEq

/-- The full JS semantics of
`errorMessageMaps[error.message] ?? 'Unknown BackendApiError'`:
an own key of the object literal yields its mapped text; a key naming
an `Object.prototype` member yields that inherited member, which is
not nullish and therefore bypasses the fallback; every other key
yields `undefined` and hence the fallback text. -/
def backendErrorDisplay (msg : String) : BackendErrorDisplay :=
  match errorMessageMaps msg with
  | some text => BackendErrorDisplay.mappedText text
  | none =>
      if msg ∈ objectPrototypeProps then BackendErrorDisplay.inheritedMember msg
      else BackendErrorDisplay.fallbackText

/-- Claim C1: `drawFullPerfChart` is invoked (the effect guard passes)
precisely when the processed view model exists, both the svg and the
canvas refs are mounted, width and height are both non-zero, and the
processed data has at least one lifespan; in particular, when the
data yields no lifespans, no draw call happens even with non-zero
dimensions. -/
theorem draw_guard {Lifespan : Type}
    (processedData : Option (ProcessedData Lifespan))
    (svgMounted canvasMounted : Bool) (width height : Nat) :
    shouldDraw processedData svgMounted canvasMounted width height = true ↔
      ∃ p, processedData = some p ∧ svgMounted = true ∧ canvasMounted = true ∧
        width ≠ 0 ∧ height ≠ 0 ∧ p.lifespans ≠ [] := by
  cases processedData with
  | none => simp [shouldDraw]
  | some p =>
      cases svgMounted <;> cases canvasMounted <;>
        by_cases hw : width = 0 <;> by_cases hh : height = 0 <;>
          by_cases hl : p.lifespans = [] <;>
            simp [shouldDraw, hw, hh, hl, List.length_eq_zero]

/-- Witness for C1: the guard passes on a concrete populated state. -/
theorem draw_guard_witness :
    shouldDraw (some pdExample) true true 3 4 = true :=
  (draw_guard (some pdExample) true true 3 4).mpr
    ⟨pdExample, rfl, rfl, rfl, by decide, by decide, by decide⟩

/-- Counterexample to Claim C2 as stated: for the message `toString`,
which is none of the four known tags, the bracket access reaches the
inherited `Object.prototype.toString`, a non-nullish value, so the
fallback text `Unknown BackendApiError` is not displayed. -/
theorem chart_error_taxonomy_counterexample :
    backendErrorDisplay ("toString") =
        BackendErrorDisplay.inheritedMember ("toString") ∧
    backendErrorDisplay ("toString") ≠ BackendErrorDisplay.fallbackText := by
  exact ⟨by decide, by decide⟩

/-- Claim C2 (amended): each of the four known backend error tags
renders its fixed user-facing text (the `not_enough_data` text noting
the minimum 30-minute data requirement); a `BackendApiError` message
that is neither one of the four tags nor the name of an
`Object.prototype` member renders the fallback text
`Unknown BackendApiError`; a message naming an `Object.prototype`
member instead yields that inherited non-nullish member, bypassing
the fallback. -/
theorem chart_error_taxonomy_amended :
    backendErrorDisplay ("bad_request") =
        BackendErrorDisplay.mappedText "Chart data loading failed: bad request." ∧
    backendErrorDisplay ("invalid_thread_name") =
        BackendErrorDisplay.mappedText "Chart data loading failed: invalid thread name." ∧
    backendErrorDisplay ("data_unavailable") =
        BackendErrorDisplay.mappedText "Chart data loading failed: data not yet available." ∧
    backendErrorDisplay ("not_enough_data") =
        BackendErrorDisplay.mappedText "There is not enough data to display the chart just yet. The chart requires at least 30 minutes of server runtime data to be available." ∧
    (∀ msg : String, msg ≠ "bad_request" → msg ≠ "invalid_thread_name" →
      msg ≠ "data_unavailable" → msg ≠ "not_enough_data" →
      msg ∉ objectPrototypeProps →
      backendErrorDisplay msg = BackendErrorDisplay.fallbackText) ∧
    (∀ msg ∈ objectPrototypeProps,
      backendErrorDisplay msg = BackendErrorDisplay.inheritedMember msg) := by
  refine ⟨by decide, by decide, by decide, by decide, ?_, ?_⟩
  · intro msg h1 h2 h3 h4 hnp
    simp [backendErrorDisplay, errorMessageMaps, h1, h2, h3, h4, hnp]
  · intro msg hm
    simp only [objectPrototypeProps, List.mem_cons, List.mem_singleton,
      List.not_mem_nil, or_false] at hm
    rcases hm with rfl | rfl | rfl | rfl | rfl | rfl | rfl | rfl | rfl | rfl |
      rfl | rfl <;> decide

/-- Witness for C2 (amended): an unrecognized tag that names no
`Object.prototype` member hits the fallback text. -/
theorem chart_error_taxonomy_amended_witness :
    backendErrorDisplay ("weird_tag") = BackendErrorDisplay.fallbackText :=
  chart_error_taxonomy_amended.2.2.2.2.1 ("weird_tag")
    (by decide) (by decide) (by decide) (by decide) (by decide)

/-- Claim C3: the memoized `processedData` derivation is pure in its
declared dependency key `[apiData, threadName, isDarkMode]`: with an
unchanged key the cached cell is returned as-is and the computation
does not run (referential stability); with a changed key the value is
recomputed as a function of the new key. -/
theorem memo_recompute_only_on_key_change {EstTime Hist Lifespan : Type}
    (getBucketTicketsEstimatedTime : List String → EstTime)
    (getTimeWeightedHistogram : List Nat → EstTime → Hist)
    (processPerfLog :
      List SvRtPerfCountsThread → (SvRtPerfCountsThread → Hist) →
        Option (ParsedPerfLog Lifespan))
    (formatTickBoundary : String → String)
    (cell : MemoCell (Option (ProcessedData Lifespan))) (deps : DepsKey) :
    (cell.deps = deps →
      useMemoStep (processedDataOfKey getBucketTicketsEstimatedTime
          getTimeWeightedHistogram processPerfLog formatTickBoundary)
        cell deps = (cell, false)) ∧
    (cell.deps ≠ deps →
      useMemoStep (processedDataOfKey getBucketTicketsEstimatedTime
          getTimeWeightedHistogram processPerfLog formatTickBoundary)
        cell deps =
        ({ deps := deps
           value := processedDataOfKey getBucketTicketsEstimatedTime
             getTimeWeightedHistogram processPerfLog formatTickBoundary deps },
         true)) := by
  constructor <;> intro h <;> simp [useMemoStep, h]

/-- Witness for C3: an unchanged key returns the cached cell without
recomputation. -/
theorem memo_recompute_witness :
    useMemoStep (processedDataOfKey (fun _ => (0 : Nat)) (fun _ _ => (0 : Nat))
        pplExample id) cellExample depsExample = (cellExample, false) :=
  (memo_recompute_only_on_key_change (fun _ => (0 : Nat)) (fun _ _ => (0 : Nat))
    pplExample id cellExample depsExample).1 rfl

/-- Claim C4: a selection-change to any of the three fixed thread
values issues exactly one re-fetch, keyed to the newly selected
thread: the fetch log grows by exactly the single new entry. -/
theorem select_triggers_single_refetch (s : CardState) (t : String)
    (h : t ∈ selectItems) :
    (selectThread s t).selectedThread = t ∧
    (selectThread s t).fetchLog = s.fetchLog ++ [t] ∧
    (selectThread s t).fetchLog.length = s.fetchLog.length + 1 := by
  refine ⟨rfl, rfl, ?_⟩
  simp [selectThread]

/-- Witness for C4: selecting `svSync` from the mount state. -/
theorem select_refetch_witness :
    (selectThread initialCardState ("svSync")).selectedThread = "svSync" ∧
    (selectThread initialCardState ("svSync")).fetchLog =
      initialCardState.fetchLog ++ ["svSync"] ∧
    (selectThread initialCardState ("svSync")).fetchLog.length =
      initialCardState.fetchLog.length + 1 :=
  select_triggers_single_refetch initialCardState ("svSync") (by decide)

/-- Claim C5: when width or height is zero `FullPerfChart` renders
null, whatever the shaped data is. -/
theorem zero_dimension_renders_nothing {Lifespan : Type}
    (processedData : Option (ProcessedData Lifespan)) (width height : Nat)
    (h : width = 0 ∨ height = 0) :
    fullPerfChartRender processedData width height = none := by
  unfold fullPerfChartRender
  rw [if_pos h]

/-- Witness for C5: zero width with data present renders nothing. -/
theorem zero_dimension_witness :
    fullPerfChartRender (some pdExample) 0 7 = none :=
  zero_dimension_renders_nothing (some pdExample) 0 7 (Or.inl rfl)

/-- Helper: folding selection events whose values all come from the
selector items preserves the invariant that every logged fetch thread
is a selector item. -/
theorem fetchLog_invariant (evs : List String) :
    ∀ s : CardState, (∀ t ∈ evs, t ∈ selectItems) →
      (∀ t ∈ s.fetchLog, t ∈ selectItems) →
      ∀ t ∈ (runEvents s evs).fetchLog, t ∈ selectItems := by
  induction evs with
  | nil => intro s _ hs; simpa [runEvents] using hs
  | cons e rest ih =>
      intro s hevs hs
      have hr : runEvents s (e :: rest) = runEvents (selectThread s e) rest := rfl
      rw [hr]
      apply ih
      · intro t ht; exact hevs t (List.mem_cons_of_mem _ ht)
      · intro t ht
        have ht2 : t ∈ s.fetchLog ++ [e] := ht
        rcases List.mem_append.mp ht2 with h1 | h2
        · exact hs t h1
        · have he : t = e := List.mem_singleton.mp h2
          subst he
          exact hevs t (List.mem_cons_self _ _)

/-- Claim C6: the selected thread starts at `svMain`, and for any
sequence of selector events every fetch ever issued carries a thread
drawn from the fixed set of the three selector items. -/
theorem requests_thread_invariant :
    initialCardState.selectedThread = "svMain" ∧
    ∀ evs : List String, (∀ t ∈ evs, t ∈ selectItems) →
      ∀ t ∈ (runEvents initialCardState evs).fetchLog, t ∈ selectItems := by
  refine ⟨rfl, ?_⟩
  intro evs hevs
  apply fetchLog_invariant evs initialCardState hevs
  intro t ht
  have he : t = "svMain" := List.mem_singleton.mp ht
  rw [he]
  decide

/-- Witness for C6: after selecting `svNetwork`, the logged fetch
thread is one of the selector items. -/
theorem requests_thread_witness :
    "svNetwork" ∈ selectItems :=
  requests_thread_invariant.2 ["svNetwork"]
    (by intro t ht; rw [List.mem_singleton.mp ht]; decide)
    ("svNetwork") (by decide)

/-- Claim C7: whenever the shaped view model is produced from an API
response, its `bucketLabels` are exactly the element-wise application
of `formatTickBoundary` to `boundaries`, in order. -/
theorem bucket_labels_formatting {EstTime Hist Lifespan : Type}
    (getBucketTicketsEstimatedTime : List String → EstTime)
    (getTimeWeightedHistogram : List Nat → EstTime → Hist)
    (processPerfLog :
      List SvRtPerfCountsThread → (SvRtPerfCountsThread → Hist) →
        Option (ParsedPerfLog Lifespan))
    (formatTickBoundary : String → String)
    (d : PerfChartApiSuccessResp) (pd : ProcessedData Lifespan)
    (h : computeProcessedData getBucketTicketsEstimatedTime
        getTimeWeightedHistogram processPerfLog formatTickBoundary
        (some d) = some pd) :
    pd.bucketLabels = d.boundaries.map formatTickBoundary := by
  simp only [computeProcessedData] at h
  split at h
  · exact absurd h (by simp)
  · injection h with h2
    subst h2
    rfl

/-- Witness for C7: concrete response with one boundary. -/
theorem bucket_labels_witness :
    pdComputedExample.bucketLabels = respExample.boundaries.map id :=
  bucket_labels_formatting (fun _ => (0 : Nat)) (fun _ _ => (0 : Nat))
    pplExample id respExample pdComputedExample rfl

/-- Claim C9: the render branches are mutually exclusive with fixed
precedence: cached data renders the chart, else loading renders the
spinner, else an error renders the error message; in particular stale
success data suppresses a concurrent fetch error. -/
theorem content_branch_precedence (data : Option PerfChartApiSuccessResp)
    (isLoading : Bool) (error : Option ChartError) (selectedThread : String)
    (width height : Nat) (isDarkMode : Bool) :
    (∀ d, data = some d →
      contentNode data isLoading error selectedThread width height isDarkMode =
        ContentNode.chart selectedThread d width height isDarkMode) ∧
    (data = none → isLoading = true →
      contentNode data isLoading error selectedThread width height isDarkMode =
        ContentNode.spinner) ∧
    (data = none → isLoading = false → ∀ e, error = some e →
      contentNode data isLoading error selectedThread width height isDarkMode =
        ContentNode.errorMessage (chartErrorMessage e)) ∧
    (∀ d, data = some d → ∀ text,
      contentNode data isLoading error selectedThread width height isDarkMode ≠
        ContentNode.errorMessage text) := by
  refine ⟨?_, ?_, ?_, ?_⟩
  · intro d hd; subst hd; rfl
  · intro hd hl; subst hd; simp [contentNode, hl]
  · intro hd hl e he; subst hd; subst he; simp [contentNode, hl]
  · intro d hd text; subst hd; simp [contentNode]

/-- Witness for C9: with data present the chart is rendered even
though an error is also present. -/
theorem content_branch_witness :
    contentNode (some respExample) false (some (ChartError.genericError none))
        ("svMain") 1 2 true =
      ContentNode.chart ("svMain") respExample 1 2 true :=
  (content_branch_precedence (some respExample) false
    (some (ChartError.genericError none)) ("svMain") 1 2 true).1 respExample rfl

/-- Claim C10: an empty backend body makes the fetcher throw a plain
Error with message `empty_response`; being no `BackendApiError`, it
bypasses the four-entry taxonomy and renders through the generic
branch as `Error: empty_response`. -/
theorem empty_response_generic_branch :
    fetcherResult none =
      Except.error (ChartError.genericError (some ("empty_response"))) ∧
    chartErrorMessage (ChartError.genericError (some ("empty_response"))) =
      "Error: empty_response" :=
  ⟨rfl, by decide⟩
